import Mathlib

/-!
Shallow embedding of the klaxon VictorOps client
(the files klaxon/victorops.py and klaxon/__init__.py of the
wikimedia/operations-software-klaxon repository).

HTTP effects are made explicit: a function that in Python performs an HTTP
request here takes the decoded response (or the fetched incident list) as an
argument, and a function that conditionally issues a request returns the
request payload it would send wrapped in Option (none = no request made).
Python exceptions become Except values.
-/

namespace Klaxon

/-- Model of a Python datetime.datetime as produced by dateutil.parser.isoparse:
the absolute instant it denotes, abstracted to minutes since the epoch
(for a naive datetime, the wall-clock fields read as if UTC), together with the
UTC offset in minutes carried by its tzinfo (none for a naive datetime).
Python compares aware datetimes by their absolute instant, i.e. by
epochMinutes. -/
structure PyDatetime where
  epochMinutes : Int
  tzOffsetMinutes : Option Int
deriving DecidableEq

/-- A tokenized ISO-8601 timestamp string, abstracted to the absolute instant it
denotes (minutes since the epoch, after subtracting the written offset) and the
UTC offset written in the string (some 0 for a trailing "Z" or "+00:00",
none when the string carries no offset). -/
structure ISO8601String where
  utcEpochMinutes : Int
  offsetMinutes : Option Int
deriving DecidableEq

/-- Model of dateutil.parser.isoparse: builds a datetime whose tzinfo carries
exactly the offset written in the string (a naive datetime when the string has
no offset).  It does not convert the result to any other timezone. -/
def isoparse (s : ISO8601String) : PyDatetime :=
  { epochMinutes := s.utcEpochMinutes, tzOffsetMinutes := s.offsetMinutes }

/-- The Incident dataclass of klaxon/victorops.py.  The Python Set[str]
fields are modelled as lists (the claims settled here only use their
membership and emptiness, on which the set conversion has no effect). -/
structure Incident where
  id : String
  summary : String
  acked : Bool
  time : PyDatetime
  teams : List String
  paged_users : List String
deriving DecidableEq

/-- One entry of the "incidents" array returned by the incident-listing API,
with the fields VictorOps._parse_incident reads.  The fields "service",
"entityDisplayName" and "monitorName" are read with i.get(key, None), so an
absent key is none. -/
structure IncidentJson where
  service : Option String
  entityDisplayName : Option String
  monitorName : Option String
  currentPhase : String
  incidentNumber : String
  pagedUsers : List String
  pagedTeams : List String
  startTime : ISO8601String
deriving DecidableEq

/-- Python "a or b" specialised to a : an optional string (the result of
dict.get(key, None)): a is falsy exactly when it is None or the empty
string. -/
def pyOrStr (a : Option String) (b : String) : String :=
  match a with
  | none => b
  | some s => if s = "" then b else s

/-- The decoded JSON body of the create-incident endpoint response, together
with the HTTP status code. -/
structure CreateIncidentResponse where
  status : Nat
  result : String
  message : Option String
deriving DecidableEq

/-- The two exceptions VictorOps.send_page can raise after receiving a
response: requests.HTTPError from raise_for_status (the TransportError of the
spec) and VictorOpsError (the UpstreamLogicError of the spec). -/
inductive SendPageError where
  | httpError (status : Nat)
  | victorOpsError (message : String)
deriving DecidableEq

/-- One target of a reroute request: dict(type="EscalationPolicy", slug=...). -/
structure RerouteTarget where
  type : String
  slug : String
deriving DecidableEq

/-- One element of the "reroutes" array of a reroute request payload. -/
structure Reroute where
  incidentNumber : String
  targets : List RerouteTarget
deriving DecidableEq

/-- The JSON payload POSTed to api-public/v1/incidents/reroute. -/
structure ReroutePayload where
  userName : String
  reroutes : List Reroute
deriving DecidableEq

/-- One element of the "entries" array of a policy step, with the field
check_policy_pages_immediately reads. -/
structure PolicyEntry where
  executionType : String
deriving DecidableEq

/-- One element of the "steps" array of a policy, with the fields
check_policy_pages_immediately reads. -/
structure PolicyStep where
  timeout : Int
  entries : List PolicyEntry
deriving DecidableEq

namespace VictorOps

/-- VictorOps._parse_incident from klaxon/victorops.py:

    summary = (i.get("service", None) or i.get("entityDisplayName", None)
               or i.get("monitorName", None) or "unknown alert")
    return Incident(summary=summary,
                    acked=i["currentPhase"] != "UNACKED",
                    id=i["incidentNumber"],
                    paged_users=set(i["pagedUsers"]),
                    time=dateutil.parser.isoparse(i["startTime"]),
                    teams=set(i["pagedTeams"])) -/
def _parse_incident (i : IncidentJson) : Incident :=
  { summary := pyOrStr i.service (pyOrStr i.entityDisplayName
      (pyOrStr i.monitorName "unknown alert"))
    acked := i.currentPhase != "UNACKED"
    id := i.incidentNumber
    paged_users := i.pagedUsers
    time := isoparse i.startTime
    teams := i.pagedTeams }

/-- Model of requests.Response.raise_for_status: it raises HTTPError exactly
for client-error and server-error status codes, i.e. 400 <= status < 600
(statuses outside that range, including 3xx, do not raise). -/
def raiseForStatusErrs (status : Nat) : Bool :=
  decide (400 ≤ status ∧ status < 600)

/-- VictorOps.send_page from klaxon/victorops.py, after the POST to the
create-incident URL returned the response resp:

    resp.raise_for_status()
    j = resp.json()
    if j["result"] != "success":
        raise VictorOpsError(j.get("message", ""))

Connection-level failures (timeouts etc.) raise inside the POST itself and
never reach this code, so they are outside this model. -/
def send_page (resp : CreateIncidentResponse) : Except SendPageError Unit :=
  if raiseForStatusErrs resp.status then
    .error (.httpError resp.status)
  else if resp.result != "success" then
    .error (.victorOpsError (resp.message.getD ""))
  else
    .ok ()

/-- VictorOps.reroute_incidents from klaxon/victorops.py; the returned
Option is the POST payload sent to api-public/v1/incidents/reroute, none
when the guard "if not incidents: return" fires and no HTTP request is made:

    if not incidents:
        return
    payload = dict(
        userName=username,
        reroutes=[dict(incidentNumber=i.id,
                       targets=[dict(type="EscalationPolicy", slug=escalate_to_policy)])
                  for i in incidents]) -/
def reroute_incidents (incidents : List Incident) (escalate_to_policy : String)
    (username : String) : Option ReroutePayload :=
  if incidents.isEmpty then
    none
  else
    some { userName := username
           reroutes := incidents.map fun i =>
             { incidentNumber := i.id
               targets := [{ type := "EscalationPolicy", slug := escalate_to_policy }] } }

/-- VictorOps.escalate_unpaged_incidents from klaxon/victorops.py, with the
incident list fetched by self.fetch_incidents() passed in as fetched:

    escalatable = [i for i in self.fetch_incidents() if not i.acked and not i.paged_users]
    return self.reroute_incidents(escalatable, escalate_to_policy, username) -/
def escalate_unpaged_incidents (fetched : List Incident) (escalate_to_policy : String)
    (username : String) : Option ReroutePayload :=
  reroute_incidents (fetched.filter fun i => !i.acked && i.paged_users.isEmpty)
    escalate_to_policy username

/-- VictorOps.check_policy_pages_immediately from klaxon/victorops.py, with
the decoded "steps" array of the policy passed in:

    return any(s for s in steps if s["timeout"] == 0
               and any(e["executionType"] == "rotation_group" for e in s["entries"]))

(The Python any ranges over the step dicts that satisfy the condition; a step
satisfying it has at least the keys "timeout" and "entries", hence is a
non-empty, truthy dict, so this equals "some step satisfies the condition".) -/
def check_policy_pages_immediately (steps : List PolicyStep) : Bool :=
  steps.any fun s => s.timeout == 0
    && s.entries.any fun e => e.executionType == "rotation_group"

end VictorOps

/-- The sort key relation of rv.sort(key=operator.attrgetter("time")): Python
compares aware datetimes by absolute instant. -/
def timeLE (a b : Incident) : Prop :=
  a.time.epochMinutes ≤ b.time.epochMinutes

instance : DecidableRel timeLE := fun a b =>
  inferInstanceAs (Decidable (a.time.epochMinutes ≤ b.time.epochMinutes))

instance : IsTotal Incident timeLE :=
  ⟨fun a b => Int.le_total a.time.epochMinutes b.time.epochMinutes⟩

instance : IsTrans Incident timeLE :=
  ⟨fun _ _ _ hab hbc => le_trans hab hbc⟩

/-- The fill computation of the memoized fetch_victorops in
klaxon/__init__.py, on a cache miss, with the current time now and the
recency window max_delta (both in minutes) and the incidents fetched from
upstream passed in:

    rv = [i for i in vo.fetch_incidents() if now - i.time < max_delta]
    rv.sort(key=operator.attrgetter("time"))
    rv.reverse()
    return rv

The Python list.sort is a stable ascending sort, modelled by the stable
List.insertionSort of Mathlib. -/
def fetch_victorops (now max_delta : Int) (fetched : List Incident) : List Incident :=
  ((fetched.filter fun i => decide (now - i.time.epochMinutes < max_delta)).insertionSort
    timeLE).reverse

/-- The descending sort key relation: a is at least as recent as b. -/
def timeGE (a b : Incident) : Prop :=
  b.time.epochMinutes ≤ a.time.epochMinutes

instance : DecidableRel timeGE := fun a b =>
  inferInstanceAs (Decidable (b.time.epochMinutes ≤ a.time.epochMinutes))

/-- Reference fill computation written from the words of the spec for claim C1:
"sort descending by time (most recent first; ties broken by original relative
order — a stable sort)".  List.insertionSort is stable, so sorting with the
descending relation keeps incidents of equal time in their original relative
order from the fetched sequence. -/
def spec_fill_stable_descending (now max_delta : Int) (fetched : List Incident) : List Incident :=
  (fetched.filter fun i => decide (now - i.time.epochMinutes < max_delta)).insertionSort timeGE

/-- First of two incidents with identical time fields, used to exhibit the tie
order of the fill computation. -/
def tieIncident1 : Incident :=
  { id := "1", summary := "first fetched", acked := false, time := ⟨0, some 0⟩,
    teams := [], paged_users := [] }

/-- Second of two incidents with identical time fields, used to exhibit the tie
order of the fill computation. -/
def tieIncident2 : Incident :=
  { id := "2", summary := "second fetched", acked := false, time := ⟨0, some 0⟩,
    teams := [], paged_users := [] }

/-- Reference timestamp written from the words of the spec for claim C6: the
startTime instant "normalized to the UTC timezone", i.e. the same absolute
instant with a UTC (zero) offset. -/
def spec_time_normalized_utc (s : ISO8601String) : PyDatetime :=
  { epochMinutes := s.utcEpochMinutes, tzOffsetMinutes := some 0 }

/-- An incident JSON entry whose startTime string carries a +05:00 offset
(300 minutes). -/
def plusFiveJson : IncidentJson :=
  { service := some "svc", entityDisplayName := none, monitorName := none,
    currentPhase := "UNACKED", incidentNumber := "10", pagedUsers := [], pagedTeams := [],
    startTime := ⟨0, some 300⟩ }

/-- Reference summary written from the words of claim C8: the first PRESENT
field in the chain service, then entityDisplayName, then monitorName,
regardless of its value; "unknown alert" when all three are absent. -/
def spec_summary_first_present (i : IncidentJson) : String :=
  match i.service with
  | some s => s
  | none =>
    match i.entityDisplayName with
    | some s => s
    | none =>
      match i.monitorName with
      | some s => s
      | none => "unknown alert"

/-- An incident JSON entry whose service field is present but empty while
entityDisplayName is present and non-empty. -/
def emptyServiceJson : IncidentJson :=
  { service := some "", entityDisplayName := some "HighLatency", monitorName := none,
    currentPhase := "UNACKED", incidentNumber := "11", pagedUsers := [], pagedTeams := [],
    startTime := ⟨0, some 0⟩ }

/-- First entry of the given chain of optional fields that is present and
non-empty; the default when none is. -/
def firstNonEmptyField : List (Option String) → String → String
  | [], d => d
  | none :: rest, d => firstNonEmptyField rest d
  | some s :: rest, d => if s = "" then firstNonEmptyField rest d else s

/-- Reference summary for the amended claim C8: the first field in the chain
service, then entityDisplayName, then monitorName that is present AND
non-empty; "unknown alert" when every field of the chain is absent or empty. -/
def spec_summary_first_nonempty (i : IncidentJson) : String :=
  firstNonEmptyField [i.service, i.entityDisplayName, i.monitorName] "unknown alert"

/-- An incident JSON entry in which each summary-source field is either absent
or the empty string. -/
def allMissingJson : IncidentJson :=
  { service := some "", entityDisplayName := none, monitorName := some "",
    currentPhase := "ACKED", incidentNumber := "12", pagedUsers := [], pagedTeams := [],
    startTime := ⟨0, some 0⟩ }

/-- Incident A of the escalate-unpaged example of the spec: unacked and paging
nobody. -/
def exampleIncidentA : Incident :=
  { id := "A", summary := "A", acked := false, time := ⟨0, some 0⟩,
    teams := ["team-sre"], paged_users := [] }

/-- Incident B of the escalate-unpaged example of the spec: unacked but already
paging a user. -/
def exampleIncidentB : Incident :=
  { id := "B", summary := "B", acked := false, time := ⟨0, some 0⟩,
    teams := ["team-sre"], paged_users := ["alice"] }

/-- Incident C of the escalate-unpaged example of the spec: acked. -/
def exampleIncidentC : Incident :=
  { id := "C", summary := "C", acked := true, time := ⟨0, some 0⟩,
    teams := ["team-sre"], paged_users := [] }

/-- Helper: reroute_incidents issues no request exactly on the empty list. -/
theorem reroute_incidents_eq_none_iff (l : List Incident) (p u : String) :
    VictorOps.reroute_incidents l p u = none ↔ l = [] := by
  cases l with
  | nil => simp [VictorOps.reroute_incidents]
  | cons a t => simp [VictorOps.reroute_incidents]

/-- Helper: inserting an incident with List.orderedInsert under the ascending
time relation prepends it to the sub-list of incidents of any fixed time
(elements skipped by the insertion are strictly older, hence of another time). -/
theorem filterTime_orderedInsert (t : Int) (x : Incident) (l : List Incident) :
    ((l.orderedInsert timeLE x).filter fun i => decide (i.time.epochMinutes = t)) =
      (if x.time.epochMinutes = t then [x] else []) ++
        (l.filter fun i => decide (i.time.epochMinutes = t)) := by
  induction l with
  | nil =>
      by_cases hx : x.time.epochMinutes = t <;> simp [hx]
  | cons b l ih =>
      by_cases hle : timeLE x b
      · rw [List.orderedInsert_of_le _ _ hle]
        by_cases hx : x.time.epochMinutes = t <;> simp [hx, List.filter_cons]
      · have hbx : b.time.epochMinutes < x.time.epochMinutes := by
          simpa [timeLE] using hle
        have hins : (b :: l).orderedInsert timeLE x = b :: l.orderedInsert timeLE x := by
          simp [List.orderedInsert, hle]
        rw [hins]
        by_cases hb : b.time.epochMinutes = t
        · have hx : ¬ x.time.epochMinutes = t := by omega
          simp [List.filter_cons, hb, hx] at ih ⊢
          exact ih
        · simp [List.filter_cons, hb] at ih ⊢
          exact ih

/-- Helper: the stable ascending sort preserves the relative order of incidents
of any fixed time (stability, phrased through filter). -/
theorem filterTime_insertionSort (t : Int) (l : List Incident) :
    ((l.insertionSort timeLE).filter fun i => decide (i.time.epochMinutes = t)) =
      l.filter fun i => decide (i.time.epochMinutes = t) := by
  induction l with
  | nil => rfl
  | cons x l ih =>
      rw [List.insertionSort]
      rw [filterTime_orderedInsert, ih]
      by_cases hx : x.time.epochMinutes = t <;> simp [hx, List.filter_cons]

/-- Claim C1, counterexample: the fill computation does NOT equal the reference
stable descending sort of the claim.  On two fetched incidents with equal
time fields, the code (stable ascending sort, then a full reversal) returns
them in reversed relative order, while the reference keeps the original
relative order. -/
theorem fetch_victorops_stable_descending_counterexample :
    fetch_victorops 0 60 [tieIncident1, tieIncident2] ≠
      spec_fill_stable_descending 0 60 [tieIncident1, tieIncident2] := by
  decide

/-- Claim C1, amended: on every cache miss the fill computation returns a
permutation of the recency-filtered fetched incidents, sorted in descending
order of their time field, and incidents with equal time appear in the
REVERSE of their original relative order from the fetched sequence (the code
sorts ascending with a stable sort and then reverses the whole list). -/
theorem fetch_victorops_descending_ties_reversed :
    ∀ (now max_delta : Int) (fetched : List Incident),
    (fetch_victorops now max_delta fetched).Perm
        (fetched.filter fun i => decide (now - i.time.epochMinutes < max_delta)) ∧
    (fetch_victorops now max_delta fetched).Pairwise
        (fun a b => b.time.epochMinutes ≤ a.time.epochMinutes) ∧
    ∀ t : Int,
      ((fetch_victorops now max_delta fetched).filter
          fun i => decide (i.time.epochMinutes = t)) =
        ((fetched.filter fun i => decide (now - i.time.epochMinutes < max_delta)).filter
            fun i => decide (i.time.epochMinutes = t)).reverse := by
  intro now md fetched
  refine ⟨?_, ?_, ?_⟩
  · exact (List.reverse_perm _).trans (List.perm_insertionSort _ _)
  · rw [fetch_victorops, List.pairwise_reverse]
    have hsorted := List.sorted_insertionSort timeLE
      (fetched.filter fun i => decide (now - i.time.epochMinutes < md))
    simpa [timeLE, List.Sorted] using hsorted
  · intro t
    rw [fetch_victorops, List.filter_reverse, filterTime_insertionSort]

/-- Claim C2, counterexample: it is not the case that send_page raises
TransportError on every non-2xx status with UpstreamLogicError reserved for
2xx statuses.  At status 300 with result "success" the code returns normally
(requests raise_for_status only raises for statuses 400-599), so no
TransportError is raised for that non-2xx status. -/
theorem send_page_non2xx_claim_counterexample :
    ¬ ∀ resp : CreateIncidentResponse,
        (¬ (200 ≤ resp.status ∧ resp.status < 300) →
          ∃ s, VictorOps.send_page resp = .error (.httpError s)) ∧
        ((∃ m, VictorOps.send_page resp = .error (.victorOpsError m)) ↔
          ((200 ≤ resp.status ∧ resp.status < 300) ∧ resp.result ≠ "success")) ∧
        ((200 ≤ resp.status ∧ resp.status < 300) ∧ resp.result = "success" →
          VictorOps.send_page resp = .ok ()) := by
  intro h
  obtain ⟨s, hs⟩ := (h ⟨300, "success", none⟩).1 (by decide)
  simp [VictorOps.send_page, VictorOps.raiseForStatusErrs] at hs

/-- Claim C2, amended: send_page raises TransportError (requests.HTTPError)
exactly when the HTTP status is an error status in the range 400-599 — in
particular for a 503 — raises UpstreamLogicError (VictorOpsError) exactly when
the status is outside that range (which includes every 2xx) and the result
field of the body is not "success", and returns normally exactly when the
status is outside the error range and the result is "success". -/
theorem send_page_error_taxonomy : ∀ resp : CreateIncidentResponse,
    ((∃ s, VictorOps.send_page resp = .error (.httpError s)) ↔
      400 ≤ resp.status ∧ resp.status < 600) ∧
    ((∃ m, VictorOps.send_page resp = .error (.victorOpsError m)) ↔
      ¬ (400 ≤ resp.status ∧ resp.status < 600) ∧ resp.result ≠ "success") ∧
    (VictorOps.send_page resp = .ok () ↔
      ¬ (400 ≤ resp.status ∧ resp.status < 600) ∧ resp.result = "success") := by
  intro resp
  by_cases h : 400 ≤ resp.status ∧ resp.status < 600 <;>
    by_cases hr : resp.result = "success" <;>
      simp [VictorOps.send_page, VictorOps.raiseForStatusErrs, h, hr]

/-- Claim C3: the escalate-unpaged workflow makes no reroute request exactly
when every fetched incident is acked or currently paging someone, and when it
does make one, the request reroutes exactly the incidents with acked = false
and empty paged_users, in fetch order, each to the target policy. -/
theorem escalate_unpaged_incidents_exactly_unpaged :
    ∀ (fetched : List Incident) (policy username : String),
    (VictorOps.escalate_unpaged_incidents fetched policy username = none ↔
      ∀ i ∈ fetched, i.acked = true ∨ i.paged_users ≠ []) ∧
    (∀ payload, VictorOps.escalate_unpaged_incidents fetched policy username = some payload →
      payload.userName = username ∧
      payload.reroutes =
        (fetched.filter fun i => decide (i.acked = false ∧ i.paged_users = [])).map
          fun i => { incidentNumber := i.id
                     targets := [{ type := "EscalationPolicy", slug := policy }] }) := by
  intro fetched policy username
  have hpred : (fetched.filter fun i => !i.acked && i.paged_users.isEmpty)
      = fetched.filter fun i => decide (i.acked = false ∧ i.paged_users = []) := by
    refine List.filter_congr ?_
    intro i _
    cases h : i.acked <;> cases hu : i.paged_users <;> simp
  unfold VictorOps.escalate_unpaged_incidents
  rw [hpred]
  constructor
  · rw [reroute_incidents_eq_none_iff, List.filter_eq_nil_iff]
    constructor
    · intro h i hi
      have := h i hi
      cases ha : i.acked <;> simp_all [List.isEmpty_iff]
    · intro h i hi
      have := h i hi
      cases ha : i.acked <;> simp_all [List.isEmpty_iff]
  · intro payload h
    cases hL : fetched.filter fun i => decide (i.acked = false ∧ i.paged_users = []) with
    | nil => rw [hL] at h; simp [VictorOps.reroute_incidents] at h
    | cons a t =>
        rw [hL] at h
        simp [VictorOps.reroute_incidents] at h
        subst h
        exact ⟨rfl, rfl⟩

/-- Claim C3, witness: on the example of the spec — A unacked and paging
nobody, B unacked but paging alice, C acked — the reroute request contains
exactly incident A. -/
theorem escalate_unpaged_incidents_exactly_unpaged_witness :
    ({ userName := "escalator_sysuser",
       reroutes := [{ incidentNumber := "A",
                      targets := [{ type := "EscalationPolicy", slug := "pol-batphone" }] }] } :
        ReroutePayload).userName = "escalator_sysuser" ∧
    ({ userName := "escalator_sysuser",
       reroutes := [{ incidentNumber := "A",
                      targets := [{ type := "EscalationPolicy", slug := "pol-batphone" }] }] } :
        ReroutePayload).reroutes =
      ([exampleIncidentA, exampleIncidentB, exampleIncidentC].filter
          fun i => decide (i.acked = false ∧ i.paged_users = [])).map
        fun i => { incidentNumber := i.id
                   targets := [{ type := "EscalationPolicy", slug := "pol-batphone" }] } :=
  (escalate_unpaged_incidents_exactly_unpaged
      [exampleIncidentA, exampleIncidentB, exampleIncidentC]
      "pol-batphone" "escalator_sysuser").2
    { userName := "escalator_sysuser"
      reroutes := [{ incidentNumber := "A"
                     targets := [{ type := "EscalationPolicy", slug := "pol-batphone" }] }] }
    (by decide)

/-- Claim C4: reroute_incidents called with an empty incidents collection
issues no HTTP request at all, for every target policy and username. -/
theorem reroute_incidents_empty_no_http_call : ∀ policy username : String,
    VictorOps.reroute_incidents [] policy username = none := by
  intro policy username
  rfl

/-- Claim C5: on every cache miss the fill computation keeps exactly the
fetched incidents strictly newer than the recency window measured against the
current time at fill: an incident is in the returned list iff it was fetched
and its age (now minus its time) is strictly below max_delta.  In particular,
with a 60-minute window an incident aged 5 minutes is kept and one aged 120
minutes is dropped. -/
theorem fetch_victorops_recency_filter_mem :
    ∀ (now max_delta : Int) (fetched : List Incident) (i : Incident),
    i ∈ fetch_victorops now max_delta fetched ↔
      i ∈ fetched ∧ now - i.time.epochMinutes < max_delta := by
  intro now md fetched i
  simp [fetch_victorops, List.mem_reverse, List.mem_filter]

/-- Claim C6, counterexample: the stored time is NOT the startTime normalized
to the UTC timezone.  For a startTime string carrying a +05:00 offset the
parsed incident stores a datetime whose tzinfo keeps that offset (300
minutes), while the reference normalized to UTC carries offset 0. -/
theorem parse_incident_time_utc_counterexample :
    (VictorOps._parse_incident plusFiveJson).time ≠
      spec_time_normalized_utc plusFiveJson.startTime := by
  decide

/-- Claim C6, amended: the time field of a parsed incident is the ISO-8601
startTime parsed by isoparse: it denotes the correct absolute instant, but its
timezone is the offset written in the input string (naive when the string has
none), not UTC; it coincides with the UTC-normalized timestamp exactly when
the input is itself expressed in UTC (offset zero, e.g. a trailing "Z"). -/
theorem parse_incident_time_preserves_offset : ∀ i : IncidentJson,
    (VictorOps._parse_incident i).time.epochMinutes = i.startTime.utcEpochMinutes ∧
    (VictorOps._parse_incident i).time.tzOffsetMinutes = i.startTime.offsetMinutes ∧
    ((VictorOps._parse_incident i).time = spec_time_normalized_utc i.startTime ↔
      i.startTime.offsetMinutes = some 0) := by
  intro i
  refine ⟨rfl, rfl, ?_⟩
  simp [VictorOps._parse_incident, isoparse, spec_time_normalized_utc, PyDatetime.mk.injEq]

/-- Claim C7: check_policy_pages_immediately returns true iff some step has
timeout 0 and contains an entry with executionType "rotation_group"; hence it
returns false when every step has a non-zero timeout or no rotation-group
entry, and on a policy with no steps. -/
theorem check_policy_pages_immediately_iff : ∀ steps : List PolicyStep,
    VictorOps.check_policy_pages_immediately steps = true ↔
      ∃ s ∈ steps, s.timeout = 0 ∧ ∃ e ∈ s.entries, e.executionType = "rotation_group" := by
  intro steps
  simp [VictorOps.check_policy_pages_immediately, List.any_eq_true]

/-- Claim C8, counterexample: the parsed summary is NOT always the first
present field of the chain.  On an entry whose service field is present but
empty and whose entityDisplayName is "HighLatency", the code falls through to
"HighLatency" while the first present field is the empty service string. -/
theorem parse_incident_summary_first_present_counterexample :
    (VictorOps._parse_incident emptyServiceJson).summary ≠
      spec_summary_first_present emptyServiceJson := by
  decide

/-- Claim C8, amended: the parsed summary is the first field in the chain
service, then entityDisplayName, then monitorName that is present AND
non-empty; when each of the three is absent or empty it is the literal
"unknown alert" (the Python or-chain treats an empty string as missing). -/
theorem parse_incident_summary_first_nonempty : ∀ i : IncidentJson,
    (VictorOps._parse_incident i).summary = spec_summary_first_nonempty i := by
  intro i
  cases hs : i.service <;> cases he : i.entityDisplayName <;> cases hm : i.monitorName <;>
    simp [VictorOps._parse_incident, spec_summary_first_nonempty, pyOrStr, firstNonEmptyField,
      hs, he, hm]

/-- Claim C9: the acked field of a parsed incident is false iff currentPhase
equals "UNACKED", and true for every other phase string, recognized or not. -/
theorem parse_incident_acked_iff_not_unacked : ∀ i : IncidentJson,
    ((VictorOps._parse_incident i).acked = false ↔ i.currentPhase = "UNACKED") := by
  intro i
  simp [VictorOps._parse_incident]

/-- Claim C10: the summary fallback chain treats a field holding the empty
string like a missing field: when each of service, entityDisplayName and
monitorName is absent or empty the summary is "unknown alert", and replacing
any present-but-empty field by an absent one never changes the summary (an
empty earlier field falls through to the next field of the chain). -/
theorem parse_incident_summary_empty_falls_through : ∀ i : IncidentJson,
    ((i.service = none ∨ i.service = some "") →
     (i.entityDisplayName = none ∨ i.entityDisplayName = some "") →
     (i.monitorName = none ∨ i.monitorName = some "") →
     (VictorOps._parse_incident i).summary = "unknown alert") ∧
    (VictorOps._parse_incident { i with service := some "" }).summary =
      (VictorOps._parse_incident { i with service := none }).summary ∧
    (VictorOps._parse_incident { i with entityDisplayName := some "" }).summary =
      (VictorOps._parse_incident { i with entityDisplayName := none }).summary ∧
    (VictorOps._parse_incident { i with monitorName := some "" }).summary =
      (VictorOps._parse_incident { i with monitorName := none }).summary := by
  intro i
  refine ⟨?_, ?_, ?_, ?_⟩
  · rintro (h1 | h1) (h2 | h2) (h3 | h3) <;>
      simp [VictorOps._parse_incident, pyOrStr, h1, h2, h3]
  · simp [VictorOps._parse_incident, pyOrStr]
  · simp [VictorOps._parse_incident, pyOrStr]
  · simp [VictorOps._parse_incident, pyOrStr]

/-- Claim C10, witness: on a concrete entry with an empty service, an absent
entityDisplayName and an empty monitorName, the summary is "unknown alert". -/
theorem parse_incident_summary_empty_falls_through_witness :
    (VictorOps._parse_incident allMissingJson).summary = "unknown alert" :=
  (parse_incident_summary_empty_falls_through allMissingJson).1 (Or.inr rfl) (Or.inl rfl)
    (Or.inr rfl)

end Klaxon
